import Mathlib

/-!
Verification of the agent orchestration engine of `vertexcare`
(`src/vertexcare/agents/chw_agent.py`): the bounded Reason-Act-Observe loop
`run_agent`, the backend client `call_agent_llm` with retry/backoff, the
response parser `parse_llm_output` plus the terminal-marker extraction, and
the tool dispatcher `execute_tool`.

The embedding works on Lean `String`s through their underlying `List Char`.
Python's `str.split(sep)`, `str.strip()`, `str.startswith`/`endswith` and the
two regular expressions used by the source are modelled by explicit
executable list functions below.  External collaborators (the Gemini text
backend, `json.loads` / `json.dumps`, and the three tool implementations in
`agent_tools.py`) are parameters of the model, gathered in `AgentEnv`.
-/

namespace VertexCare

/-- Does `cs` start with the pattern `pat`?  Models Python `str.startswith`
restricted to the concrete patterns used by `chw_agent.py`. -/
def startsWithL : List Char → List Char → Bool
  | [], _ => true
  | _ :: _, [] => false
  | p :: ps, c :: cs => p == c && startsWithL ps cs

/-- Does `cs` contain `pat` as a contiguous substring?  Models Python's
`pat in s` test on strings. -/
def hasSubstrL : List Char → List Char → Bool
  | [], pat => pat.isEmpty
  | c :: cs, pat => startsWithL pat (c :: cs) || hasSubstrL cs pat

/-- The characters strictly after the first occurrence of `pat`, if `pat`
occurs in `cs`. -/
def afterFirstL (pat : List Char) : List Char → Option (List Char)
  | [] => none
  | c :: cs =>
    if startsWithL pat (c :: cs) then some ((c :: cs).drop pat.length)
    else afterFirstL pat cs

/-- The characters strictly before the first occurrence of `pat`, if `pat`
occurs in `cs`. -/
def beforeFirstL (pat : List Char) : List Char → Option (List Char)
  | [] => none
  | c :: cs =>
    if startsWithL pat (c :: cs) then some []
    else (beforeFirstL pat cs).map (c :: ·)

/-- Element `[1]` of Python's `s.split(pat)` when `pat` occurs in `s`: the
segment between the first occurrence of `pat` and the following one (or the
end of the string). -/
def pieceOneL (pat cs : List Char) : Option (List Char) :=
  (afterFirstL pat cs).map (fun r => (beforeFirstL pat r).getD r)

/-- The whitespace characters removed by Python `str.strip()` (the source
only ever strips ASCII text). -/
def isPySpace (c : Char) : Bool :=
  c == ' ' || c == '\t' || c == '\n' || c == '\r'

/-- Python `str.strip()` on the character list. -/
def trimL (cs : List Char) : List Char :=
  ((cs.dropWhile isPySpace).reverse.dropWhile isPySpace).reverse

/-- `cs` ends with `pat` (Python `str.endswith`). -/
def endsWithL (pat cs : List Char) : Bool :=
  startsWithL pat.reverse cs.reverse

/-- Python `s[:-n]` for `n ≤ len s`: drop the last `n` characters. -/
def dropRightL (n : ℕ) (cs : List Char) : List Char :=
  (cs.reverse.drop n).reverse

/-- String wrapper: Python `pat in s`. -/
def strContains (s pat : String) : Bool :=
  hasSubstrL s.data pat.data

/-- String wrapper: Python `s.startswith(pat)`. -/
def strStartsWith (s pat : String) : Bool :=
  startsWithL pat.data s.data

/-- String wrapper: Python `s.endswith(pat)`. -/
def strEndsWith (s pat : String) : Bool :=
  endsWithL pat.data s.data

/-- String wrapper: Python `s.strip()`. -/
def trimS (s : String) : String :=
  ⟨trimL s.data⟩

/-!
Source constants of `chw_agent.py`.
-/

/-- Source: `MAX_ITERATIONS = 5` (`chw_agent.py`, line 39). -/
def MAX_ITERATIONS : ℕ := 5

/-- Source: the `SYSTEM_PROMPT` string literal of `chw_agent.py` (lines
42-73), transcribed verbatim (braces and apostrophes written as hex
escapes). -/
def SYSTEM_PROMPT : String :=
  "You are an expert Community Health Worker (CHW) coordinator named \"Maanav\".\n" ++
  "Your mission is to analyze patient cases, " ++
  "determine their risk of hospital readmission,\n" ++
  "and create a clear, prioritized, and actionable intervention plan.\n\n" ++
  "You must operate in a strict Reason-Act-Observe loop.\n" ++
  "At each step, you will use the following format:\n" ++
  "You MUST stop after each \x27Action:\x27 and wait for a new \x27Observation:\x27.\n\n" ++
  "Thought: Your internal monologue and reasoning for what to do next.\n" ++
  "Action: The tool you will use to gather information.\n" ++
  "You can only use one of the following tools:\n" ++
  "- prediction_tool(patient_id: int)\n" ++
  "- explanation_tool(patient_id: int)\n" ++
  "- notes_tool(patient_id: int)\n\n" ++
  "If you have gathered enough information, you MUST provide the final answer\n" ++
  "formatted as:\n" ++
  "Final Answer: <JSON object containing the plan>\n\n" ++
  "The JSON object MUST have the following exact structure:\n" ++
  "\x7b\n" ++
  "  \"patient_id\": integer,\n" ++
  "  \"readmission_risk_score\": float (between 0.0 and 1.0, from the\n" ++
  "    prediction_tool),\n" ++
  "  \"risk_summary\": \"A concise, one-sentence summary of the patient\x27s main\n" ++
  "    risk factors based on the tools.\",\n" ++
  "  \"recommended_actions\": [\n" ++
  "    \x7b\n" ++
  "      \"priority\": \"High\" | \"Medium\" | \"Low\",\n" ++
  "      \"action\": \"A specific, actionable intervention step.\"\n" ++
  "    \x7d\n" ++
  "  ]\n" ++
  "\x7d\n"

/-!
`parse_llm_output` (`chw_agent.py`, lines 116-122).

The source applies `re.search(r"Thought:(.*?)Action:", response, re.DOTALL)`
and `re.search(r"Action:(.*)", response, re.DOTALL)`.  With `re.DOTALL` the
dot matches every character, so the first pattern matches exactly when an
`"Action:"` occurs after the first `"Thought:"`, capturing the text between
the first `"Thought:"` and the first subsequent `"Action:"`; the second
captures everything after the first `"Action:"`.  Both groups are stripped,
with `""` when the pattern does not match.
-/

/-- `parse_llm_output` of `chw_agent.py`: separate thought from action. -/
def parse_llm_output (response : String) : String × String :=
  let cs := response.data
  let thought : String :=
    match afterFirstL "Thought:".data cs with
    | none => ""
    | some rest =>
      match beforeFirstL "Action:".data rest with
      | none => ""
      | some t => ⟨trimL t⟩
  let action : String :=
    match afterFirstL "Action:".data cs with
    | none => ""
    | some rest => ⟨trimL rest⟩
  (thought, action)

/-!
Terminal-marker extraction (`chw_agent.py`, lines 175-180): from
`llm_response.split("Final Answer:")[1]`, strip, remove a leading
`"\x60\x60\x60json"` (7 characters) and a trailing `"\x60\x60\x60"`, strip again.  The
source performs this only when `"Final Answer:" in llm_response`, so the
split has at least two pieces.
-/

/-- The text the source hands to `json.loads` after detecting the
terminal marker: `split("Final Answer:")[1]`, stripped, with the optional
code-fence tokens removed and a final strip. -/
def extractFinalJson (response : String) : String :=
  let js0 := trimL ((pieceOneL "Final Answer:".data response.data).getD [])
  let js1 := if startsWithL "\x60\x60\x60json".data js0 then js0.drop 7 else js0
  let js2 := if endsWithL "\x60\x60\x60".data js1 then dropRightL 3 js1 else js1
  ⟨trimL js2⟩

/-!
Integer extraction of the dispatcher (`chw_agent.py`, line 143):
`re.search(r"\(.*?(\d+).*?\)", action)`.  Without `re.DOTALL` the dot does
not match a newline, so a match starting at some `(` needs, on the same
line, a first digit, the maximal digit run starting there, and then some
`)` after that run; the captured group is that first maximal digit run.
When the attempt rooted at one `(` fails, the search resumes at the next
`(`.  `int(...)` of the captured digits gives the patient id.
-/

/-- Scan to the first decimal digit, failing at a newline or the end
(the lazy dot of the pattern cannot cross a newline). -/
def scanToDigit : List Char → Option (List Char)
  | [] => none
  | c :: cs => if c.isDigit then some (c :: cs)
               else if c == '\n' then none else scanToDigit cs

/-- Split off the maximal leading digit run. -/
def takeDigits : List Char → List Char × List Char
  | [] => ([], [])
  | c :: cs =>
    if c.isDigit then
      let p := takeDigits cs
      (c :: p.1, p.2)
    else ([], c :: cs)

/-- Is there a closing parenthesis before the next newline (or end)? -/
def scanToClose : List Char → Bool
  | [] => false
  | c :: cs => if c == ')' then true
               else if c == '\n' then false else scanToClose cs

/-- Python `int` on a (nonempty) digit run. -/
def digitsToNat (ds : List Char) : ℕ :=
  ds.foldl (fun a c => 10 * a + (c.toNat - 48)) 0

/-- One match attempt of `\(.*?(\d+).*?\)` rooted at a `(`; `cs` is the text
right after that `(`. -/
def matchIntFrom (cs : List Char) : Option ℕ :=
  match scanToDigit cs with
  | none => none
  | some ds =>
    let p := takeDigits ds
    if scanToClose p.2 then some (digitsToNat p.1) else none

/-- Leftmost match of `\(.*?(\d+).*?\)` over the whole action string. -/
def findIntAux : List Char → Option ℕ
  | [] => none
  | c :: cs =>
    if c == '(' then
      match matchIntFrom cs with
      | some n => some n
      | none => findIntAux cs
    else findIntAux cs

/-- The integer patient id the dispatcher extracts from an action string,
if any (`chw_agent.py`, lines 143-147). -/
def findIntInParens (action : String) : Option ℕ :=
  findIntAux action.data

/-- The tool name the dispatcher extracts: `action.split("(", 1)[0].strip()`
(`chw_agent.py`, line 140). -/
def funcName (action : String) : String :=
  ⟨trimL ((beforeFirstL "(".data action.data).getD action.data)⟩

/-- The three registered tools of `chw_agent.py` (the keys of
`tool_functions`, lines 129-137). -/
inductive ToolName where
  | prediction_tool
  | notes_tool
  | explanation_tool
deriving DecidableEq

/-- Registry lookup: `func_name not in tool_functions` fails exactly when
this is `none` (`chw_agent.py`, line 151). -/
def toolOfName (s : String) : Option ToolName :=
  if s = "prediction_tool" then some .prediction_tool
  else if s = "notes_tool" then some .notes_tool
  else if s = "explanation_tool" then some .explanation_tool
  else none

/-- What `execute_tool` returns: the dict produced by the invoked tool
(`ok`), or the `\x7b"error": "Failed to execute tool: ..."\x7d` dict built in
its `except` branch (`err`).  `J` is the type of decoded/encoded JSON
objects, kept abstract. -/
inductive ToolOutcome (J : Type) where
  | ok (v : J)
  | err (msg : String)
deriving DecidableEq

/-- Is this the error dict of the dispatcher's `except` branch? -/
def ToolOutcome.isErr {J : Type} : ToolOutcome J → Bool
  | .ok _ => false
  | .err _ => true

/-- `execute_tool` of `chw_agent.py` (lines 125-158).  The three tool
implementations are injected as `tools`; a tool invocation that raises is
modelled by `Except.error` with the exception's message, and is converted by
the surrounding `try/except` into an error dict — so the dispatcher itself
never propagates an exception.  The integer extraction runs before the
registry check, as in the source. -/
def execute_tool {J : Type} (tools : ToolName → ℕ → Except String J)
    (action : String) : ToolOutcome J :=
  let fn := funcName action
  match findIntInParens action with
  | none =>
    .err ("Failed to execute tool: Could not find a valid integer patient ID in action: "
      ++ action)
  | some pid =>
    match toolOfName fn with
    | none => .err ("Failed to execute tool: Unknown tool specified: " ++ fn)
    | some t =>
      match tools t pid with
      | .ok v => .ok v
      | .error m => .err ("Failed to execute tool: " ++ m)

/-!
`call_agent_llm` (`chw_agent.py`, lines 76-113).

One attempt of the live call has four deterministic outcomes, modelled by
`AttemptOutcome`: the model answers with text (`success`), the response has
no candidates because a safety filter withheld it (`safetyBlocked`), the
call raises `google.api_core.exceptions.ResourceExhausted` (`rateLimited`),
or it raises any other exception (`exc` with the exception's message).  The
deterministic behaviour of the backend across attempts is a function from
the attempt index to an outcome.  `time.sleep(delay)` is recorded in the
returned wait list instead of really waiting; real time is outside the
model.
-/

/-- The outcome of one `generate_content` attempt. -/
inductive AttemptOutcome where
  | success (text : String)
  | safetyBlocked
  | rateLimited
  | exc (msg : String)
deriving DecidableEq

/-- The value `call_agent_llm` hands to the loop: either the raw text
response, or one of its `\x7b"error": ...\x7d` dicts (`errdict` carries the
message under the `"error"` key). -/
inductive BackendResult where
  | text (s : String)
  | errdict (msg : String)
deriving DecidableEq

/-- Is this one of the client's error dicts? -/
def BackendResult.isErrdict : BackendResult → Bool
  | .text _ => false
  | .errdict _ => true

/-- The `for i in range(retries)` loop of `call_agent_llm`.  `i` is the
current attempt index, `remaining` the number of attempts left (so the
Python guard `i < retries - 1` is `remaining > 1`, i.e. the bound pattern
below is nonzero); `delay` is the current backoff delay and `waits` the
reversed list of performed sleeps.  Falling off the loop returns the
exhaustion error dict (line 113). -/
def llmRetryLoop (attempts : ℕ → AttemptOutcome) (retries : ℕ) :
    ℕ → ℕ → ℕ → List ℕ → BackendResult × List ℕ
  | _, 0, _, waits =>
    (.errdict ("Failed to call Gemini API after " ++ toString retries ++ " attempts."),
      waits.reverse)
  | i, remaining + 1, delay, waits =>
    match attempts i with
    | .success t => (.text t, waits.reverse)
    | .safetyBlocked => (.errdict "Response was blocked by safety settings.", waits.reverse)
    | .rateLimited =>
      llmRetryLoop attempts retries (i + 1) remaining (delay * 2) (delay :: waits)
    | .exc m =>
      if remaining = 0 then (.errdict m, waits.reverse)
      else llmRetryLoop attempts retries (i + 1) remaining (delay * 2) (delay :: waits)

/-- `call_agent_llm` of `chw_agent.py`: the missing-API-key early return,
then the retry loop with its exponential backoff.  Returns the result
together with the list of performed backoff waits.  The Python defaults are
`retries = 3`, `delay = 5`. -/
def call_agent_llm (apiKeyConfigured : Bool) (attempts : ℕ → AttemptOutcome)
    (retries delay : ℕ) : BackendResult × List ℕ :=
  if apiKeyConfigured then llmRetryLoop attempts retries 0 retries delay []
  else (.errdict "Gemini API key is not configured.", [])

/-!
`run_agent` (`chw_agent.py`, lines 161-204).

The loop's external collaborators are a deterministic backend (the composed
`call_agent_llm`, a function of the prompt it is given), `json.loads`
(partial decoding into the abstract object type `J`), `json.dumps` on tool
results, and the three tools.  On a dict-valued backend result the Python
test `"Final Answer:" in llm_response` checks the dict's keys; every dict
`call_agent_llm` can produce has the single key `"error"`, so that test is
false and the `isinstance` branch returns the dict unchanged.
-/

/-- The external collaborators of one `run_agent` execution. -/
structure AgentEnv (J : Type) where
  backend : String → BackendResult
  jsonLoads : String → Option J
  dumps : ToolOutcome J → String
  tools : ToolName → ℕ → Except String J

/-- The single outcome of a run: a decoded final plan, or one of the error
dicts (`errdict` carries the message under the `"error"` key). -/
inductive AgentOutcome (J : Type) where
  | plan (j : J)
  | errdict (msg : String)
deriving DecidableEq

/-- Instrumented result of a run: the outcome plus how many backend calls
and tool dispatches were performed, and the transcript (`prompt_history`)
at the start of every executed iteration (ending with the history the loop
stopped at). -/
structure AgentTrace (J : Type) where
  result : AgentOutcome J
  backendCalls : ℕ
  toolDispatches : ℕ
  transcripts : List String
deriving DecidableEq

/-- The `for i in range(MAX_ITERATIONS)` loop of `run_agent`, by remaining
iteration count.  Each iteration calls the backend on the current history;
an error dict is returned unchanged; a text response containing the
terminal marker is decoded (success returns the plan, failure the generic
parse error); otherwise the action is parsed out, dispatched, and the raw
response plus the serialized observation are appended to the history.
Falling off the loop returns the final failure dict (line 204). -/
def runLoop {J : Type} (env : AgentEnv J) : ℕ → String → AgentTrace J
  | 0, h => ⟨.errdict "Agent failed to complete.", 0, 0, [h]⟩
  | fuel + 1, h =>
    match env.backend h with
    | .errdict m => ⟨.errdict m, 1, 0, [h]⟩
    | .text s =>
      if strContains s "Final Answer:" then
        match env.jsonLoads (extractFinalJson s) with
        | some j => ⟨.plan j, 1, 0, [h]⟩
        | none => ⟨.errdict "Failed to parse the final plan from the LLM.", 1, 0, [h]⟩
      else
        let tr := execute_tool env.tools (parse_llm_output s).2
        let h' := h ++ "\n" ++ s ++ "\n" ++ ("Observation: " ++ env.dumps tr)
        let rest := runLoop env fuel h'
        ⟨rest.result, rest.backendCalls + 1, rest.toolDispatches + 1, h :: rest.transcripts⟩

/-- The seed transcript of `run_agent` (line 164). -/
def initialHistory (patient_id : ℤ) : String :=
  SYSTEM_PROMPT ++ "\n\nBegin analysis for patient_id: " ++ toString patient_id

/-- `run_agent` of `chw_agent.py`: seed the transcript, then run the loop
for at most `MAX_ITERATIONS` iterations. -/
def run_agent {J : Type} (env : AgentEnv J) (patient_id : ℤ) : AgentTrace J :=
  runLoop env MAX_ITERATIONS (initialHistory patient_id)

/-- One non-terminal iteration appends the raw backend response and the
rendered observation; this is the step relation between successive
transcripts. -/
def transcriptStep {J : Type} (env : AgentEnv J) (a b : String) : Prop :=
  ∃ s, env.backend a = .text s ∧ strContains s "Final Answer:" = false ∧
    b = a ++ "\n" ++ s ++ "\n" ++
      ("Observation: " ++ env.dumps (execute_tool env.tools (parse_llm_output s).2))

/-!
Concrete stand-ins used to evaluate the model on closed inputs: the
abstract object type `J` is instantiated at `String`, a tool invocation
returns a label recording which tool ran on which patient id, and the
backends are simple deterministic stubs.
-/

/-- A printable label per registered tool. -/
def toolLabel : ToolName → String
  | .prediction_tool => "prediction_tool"
  | .notes_tool => "notes_tool"
  | .explanation_tool => "explanation_tool"

/-- Deterministic tool stand-ins recording the dispatched call. -/
def stubTools : ToolName → ℕ → Except String String :=
  fun t n => .ok (toolLabel t ++ ":" ++ toString n)

/-- Environment whose backend always reports an error dict. -/
def envBackendError : AgentEnv String :=
  ⟨fun _ => .errdict "quota exceeded", fun _ => none, fun _ => "\x7b\x7d", stubTools⟩

/-- Environment whose backend always answers with a Thought/Action text and
never with the terminal marker. -/
def envNoMarker : AgentEnv String :=
  ⟨fun _ => .text "Thought: inspect\nAction: notes_tool(7)", fun _ => none,
    fun _ => "\x7b\x7d", stubTools⟩

/-- Environment whose backend emits the terminal marker with an undecodable
payload. -/
def envBadPlan : AgentEnv String :=
  ⟨fun _ => .text "Final Answer: not json", fun _ => none, fun _ => "\x7b\x7d", stubTools⟩

/-- Number of maximal digit runs ("usable integers") in a character list. -/
def digitRunCountAux : Bool → List Char → ℕ
  | _, [] => 0
  | inRun, c :: cs =>
    if c.isDigit then (if inRun then 0 else 1) + digitRunCountAux true cs
    else digitRunCountAux false cs

/-- Number of maximal digit runs in a character list. -/
def digitRunCount (cs : List Char) : ℕ :=
  digitRunCountAux false cs

-- Sanity checks of the primitives on concrete inputs.
example : strContains "abc Final Answer: x" "Final Answer:" = true := by decide
example : strContains "abc" "Final Answer:" = false := by decide
example : pieceOneL "b".data "abcbd".data = some "c".data := by decide
example : pieceOneL "b".data "abc".data = some "c".data := by decide
example : trimS "  x y\n" = "x y" := by decide
example : strEndsWith "a\x60\x60\x60" "\x60\x60\x60" = true := by decide
example : dropRightL 3 "abcde".data = "ab".data := by decide
example : findIntInParens "prediction_tool(101)" = some 101 := by decide
example : findIntInParens "prediction_tool(1, 2)" = some 1 := by decide
example : findIntInParens "prediction_tool()" = none := by decide
example : findIntInParens "" = none := by decide
example : findIntInParens "f(patient_id=42)" = some 42 := by decide
example : findIntInParens "f(12\ng) (3)" = some 3 := by decide
example : funcName "notes_tool (7)" = "notes_tool" := by decide
example : funcName "" = "" := by decide
example : parse_llm_output "Thought: think\nAction: notes_tool(7)" =
    ("think", "notes_tool(7)") := by decide
example : parse_llm_output "no markers at all" = ("", "") := by decide
example : extractFinalJson "Final Answer: \x60\x60\x60json\n\x7b\"a\": 1\x7d\n\x60\x60\x60" =
    "\x7b\"a\": 1\x7d" := by decide
example : extractFinalJson "Final Answer: \x7b\"a\": 1\x7d" = "\x7b\"a\": 1\x7d" := by decide

/-!
Helper lemmas about the string primitives.
-/

theorem startsWithL_append_self (pat r : List Char) :
    startsWithL pat (pat ++ r) = true := by
  induction pat with
  | nil => rfl
  | cons p ps ih => simp [startsWithL, ih]

theorem afterFirstL_append_self (pat r : List Char) (hpat : pat ≠ []) :
    afterFirstL pat (pat ++ r) = some r := by
  cases pat with
  | nil => exact absurd rfl hpat
  | cons p ps =>
    show afterFirstL (p :: ps) (p :: (ps ++ r)) = some r
    rw [afterFirstL]
    have hs : startsWithL (p :: ps) (p :: (ps ++ r)) = true :=
      startsWithL_append_self (p :: ps) r
    rw [if_pos hs]
    simp [List.drop_left']

theorem beforeFirstL_eq_none (pat : List Char) :
    ∀ cs : List Char, hasSubstrL cs pat = false → beforeFirstL pat cs = none := by
  intro cs
  induction cs with
  | nil => intro _; rfl
  | cons c cs ih =>
    intro h
    rw [hasSubstrL, Bool.or_eq_false_iff] at h
    rw [beforeFirstL, if_neg (by simp [h.1]), ih h.2]
    rfl

theorem afterFirstL_eq_none (pat : List Char) :
    ∀ cs : List Char, hasSubstrL cs pat = false → afterFirstL pat cs = none := by
  intro cs
  induction cs with
  | nil => intro _; rfl
  | cons c cs ih =>
    intro h
    rw [hasSubstrL, Bool.or_eq_false_iff] at h
    rw [afterFirstL, if_neg (by simp [h.1]), ih h.2]

theorem trimL_eq_self_parts {cs : List Char} (h : trimL cs = cs) :
    cs.dropWhile isPySpace = cs ∧ cs.reverse.dropWhile isPySpace = cs.reverse := by
  have ha : cs.dropWhile isPySpace <:+ cs := List.dropWhile_suffix _
  have hb : (cs.dropWhile isPySpace).reverse.dropWhile isPySpace <:+
      (cs.dropWhile isPySpace).reverse := List.dropWhile_suffix _
  have hla : (cs.dropWhile isPySpace).length ≤ cs.length := ha.length_le
  have hlb : ((cs.dropWhile isPySpace).reverse.dropWhile isPySpace).length ≤
      (cs.dropWhile isPySpace).length := by
    simpa using hb.length_le
  have hlen : ((cs.dropWhile isPySpace).reverse.dropWhile isPySpace).length = cs.length := by
    have := congrArg List.length h
    simpa [trimL] using this
  have haeq : cs.dropWhile isPySpace = cs := ha.eq_of_length (by omega)
  refine ⟨haeq, ?_⟩
  rw [haeq] at hb hlen
  exact hb.eq_of_length (by simpa using hlen)

theorem dropWhile_cons_of_neg {p : Char → Bool} {c : Char} {t : List Char}
    (hc : p c = false) : (c :: t).dropWhile p = c :: t := by
  simp [List.dropWhile, hc]

theorem head_not_space_of_dropWhile_eq {p : Char → Bool} {c : Char} {t : List Char}
    (h : (c :: t).dropWhile p = c :: t) : p c = false := by
  have := List.dropWhile_eq_self_iff.mp h (by simp)
  simpa using this

/-!
Branch equations of the loop body, one per transition of the source's
iteration (`chw_agent.py`, lines 166-201).
-/

/-- Backend error dict: returned unchanged, nothing dispatched or appended. -/
theorem runLoop_backend_error {J : Type} (env : AgentEnv J) (fuel : ℕ) (h m : String)
    (hb : env.backend h = .errdict m) :
    runLoop env (fuel + 1) h = ⟨.errdict m, 1, 0, [h]⟩ := by
  simp [runLoop, hb]

/-- Terminal marker present and the payload decodes: the plan is returned. -/
theorem runLoop_final_plan {J : Type} (env : AgentEnv J) (fuel : ℕ) (h s : String) (j : J)
    (hb : env.backend h = .text s) (hm : strContains s "Final Answer:" = true)
    (hj : env.jsonLoads (extractFinalJson s) = some j) :
    runLoop env (fuel + 1) h = ⟨.plan j, 1, 0, [h]⟩ := by
  simp [runLoop, hb, hm, hj]

/-- Terminal marker present but the payload does not decode: the generic
parse-failure error dict is returned at once. -/
theorem runLoop_parse_failure {J : Type} (env : AgentEnv J) (fuel : ℕ) (h s : String)
    (hb : env.backend h = .text s) (hm : strContains s "Final Answer:" = true)
    (hj : env.jsonLoads (extractFinalJson s) = none) :
    runLoop env (fuel + 1) h = ⟨.errdict "Failed to parse the final plan from the LLM.", 1, 0, [h]⟩ := by
  simp [runLoop, hb, hm, hj]

/-- No marker: the action is dispatched, the response and observation are
appended, and the loop continues with one more iteration consumed. -/
theorem runLoop_step {J : Type} (env : AgentEnv J) (fuel : ℕ) (h s : String)
    (hb : env.backend h = .text s) (hm : strContains s "Final Answer:" = false) :
    runLoop env (fuel + 1) h =
      ⟨(runLoop env fuel (h ++ "\n" ++ s ++ "\n" ++
          ("Observation: " ++ env.dumps (execute_tool env.tools (parse_llm_output s).2)))).result,
        (runLoop env fuel (h ++ "\n" ++ s ++ "\n" ++
          ("Observation: " ++ env.dumps (execute_tool env.tools (parse_llm_output s).2)))).backendCalls + 1,
        (runLoop env fuel (h ++ "\n" ++ s ++ "\n" ++
          ("Observation: " ++ env.dumps (execute_tool env.tools (parse_llm_output s).2)))).toolDispatches + 1,
        h :: (runLoop env fuel (h ++ "\n" ++ s ++ "\n" ++
          ("Observation: " ++ env.dumps (execute_tool env.tools (parse_llm_output s).2)))).transcripts⟩ := by
  simp [runLoop, hb, hm]

/-!
Claim support lemmas about the loop.
-/

theorem runLoop_transcripts_head {J : Type} (env : AgentEnv J) (fuel : ℕ) (h : String) :
    (runLoop env fuel h).transcripts.head? = some h := by
  cases fuel with
  | zero => rfl
  | succ n =>
    cases hb : env.backend h with
    | errdict m => rw [runLoop_backend_error env n h m hb]; rfl
    | text s =>
      by_cases hm : strContains s "Final Answer:"
      · cases hj : env.jsonLoads (extractFinalJson s) with
        | none => rw [runLoop_parse_failure env n h s hb hm hj]; rfl
        | some j => rw [runLoop_final_plan env n h s j hb hm hj]; rfl
      · rw [runLoop_step env n h s hb (by simpa using hm)]; rfl

theorem runLoop_transcripts_chain {J : Type} (env : AgentEnv J) :
    ∀ (fuel : ℕ) (h : String),
      List.Chain' (transcriptStep env) (runLoop env fuel h).transcripts := by
  intro fuel
  induction fuel with
  | zero => intro h; simp [runLoop]
  | succ n ih =>
    intro h
    cases hb : env.backend h with
    | errdict m => rw [runLoop_backend_error env n h m hb]; simp
    | text s =>
      by_cases hm : strContains s "Final Answer:"
      · cases hj : env.jsonLoads (extractFinalJson s) with
        | none => rw [runLoop_parse_failure env n h s hb hm hj]; simp
        | some j => rw [runLoop_final_plan env n h s j hb hm hj]; simp
      · rw [runLoop_step env n h s hb (by simpa using hm)]
        rw [List.chain'_cons']
        constructor
        · intro b hbmem
          rw [runLoop_transcripts_head] at hbmem
          cases hbmem
          exact ⟨s, hb, by simpa using hm, rfl⟩
        · exact ih _

theorem runLoop_calls_le {J : Type} (env : AgentEnv J) :
    ∀ (fuel : ℕ) (h : String),
      (runLoop env fuel h).backendCalls ≤ fuel ∧
      (runLoop env fuel h).toolDispatches ≤ fuel := by
  intro fuel
  induction fuel with
  | zero => intro h; simp [runLoop]
  | succ n ih =>
    intro h
    cases hb : env.backend h with
    | errdict m => rw [runLoop_backend_error env n h m hb]; constructor <;> simp
    | text s =>
      by_cases hm : strContains s "Final Answer:"
      · cases hj : env.jsonLoads (extractFinalJson s) with
        | none => rw [runLoop_parse_failure env n h s hb hm hj]; constructor <;> simp
        | some j => rw [runLoop_final_plan env n h s j hb hm hj]; constructor <;> simp
      · rw [runLoop_step env n h s hb (by simpa using hm)]
        have := ih (h ++ "\n" ++ s ++ "\n" ++
          ("Observation: " ++ env.dumps (execute_tool env.tools (parse_llm_output s).2)))
        constructor <;> simp <;> omega

theorem runLoop_all_text_no_marker {J : Type} (env : AgentEnv J)
    (hyp : ∀ p, ∃ s, env.backend p = .text s ∧ strContains s "Final Answer:" = false) :
    ∀ (fuel : ℕ) (h : String),
      (runLoop env fuel h).result = .errdict "Agent failed to complete." := by
  intro fuel
  induction fuel with
  | zero => intro h; rfl
  | succ n ih =>
    intro h
    obtain ⟨s, hb, hm⟩ := hyp h
    rw [runLoop_step env n h s hb hm]
    exact ih _

/-!
Lemmas about the backend client's retry loop.
-/

theorem llmRetryLoop_err_of_failures (att : ℕ → AttemptOutcome) (retries : ℕ) :
    ∀ (remaining i delay : ℕ) (waits : List ℕ),
      (∀ k, k < remaining → att (i + k) = .rateLimited ∨ ∃ m, att (i + k) = .exc m) →
      ((llmRetryLoop att retries i remaining delay waits).1).isErrdict = true := by
  intro remaining
  induction remaining with
  | zero => intro i delay waits _; rfl
  | succ r ih =>
    intro i delay waits hfail
    have h0 := hfail 0 (by omega)
    rw [Nat.add_zero] at h0
    have hshift : ∀ k, k < r →
        att (i + 1 + k) = .rateLimited ∨ ∃ m, att (i + 1 + k) = .exc m := by
      intro k hk
      have := hfail (k + 1) (by omega)
      rwa [show i + (k + 1) = i + 1 + k by omega] at this
    rcases h0 with h0 | ⟨m, h0⟩
    · simp only [llmRetryLoop, h0]
      exact ih (i + 1) (delay * 2) (delay :: waits) hshift
    · simp only [llmRetryLoop, h0]
      by_cases hr : r = 0
      · subst hr; rfl
      · rw [if_neg hr]
        exact ih (i + 1) (delay * 2) (delay :: waits) hshift

theorem llmRetryLoop_safety (att : ℕ → AttemptOutcome) (retries : ℕ) :
    ∀ (k i delay : ℕ) (waits : List ℕ) (remaining : ℕ), k < remaining →
      (∀ j, j < k → att (i + j) = .rateLimited) → att (i + k) = .safetyBlocked →
      llmRetryLoop att retries i remaining delay waits =
        (.errdict "Response was blocked by safety settings.",
          waits.reverse ++ (List.range k).map (fun j => 2 ^ j * delay)) := by
  intro k
  induction k with
  | zero =>
    intro i delay waits remaining hlt hpre hsb
    obtain ⟨r, rfl⟩ : ∃ r, remaining = r + 1 := ⟨remaining - 1, by omega⟩
    rw [Nat.add_zero] at hsb
    simp only [llmRetryLoop, hsb]
    simp
  | succ k ih =>
    intro i delay waits remaining hlt hpre hsb
    obtain ⟨r, rfl⟩ : ∃ r, remaining = r + 1 := ⟨remaining - 1, by omega⟩
    have h0 : att i = .rateLimited := by
      have := hpre 0 (by omega)
      rwa [Nat.add_zero] at this
    simp only [llmRetryLoop, h0]
    rw [ih (i + 1) (delay * 2) (delay :: waits) r (by omega)
      (fun j hj => by
        have := hpre (j + 1) (by omega)
        rwa [show i + (j + 1) = i + 1 + j by omega] at this)
      (by rwa [show i + 1 + k = i + (k + 1) by omega])]
    refine congrArg _ ?_
    rw [List.range_succ_eq_map]
    simp only [List.reverse_cons, List.map_cons, List.map_map, List.append_assoc,
      List.singleton_append, pow_zero, one_mul]
    refine congrArg _ (congrArg _ ?_)
    refine List.map_congr_left ?_
    intro j _
    simp [Function.comp, pow_succ]
    ring


theorem trimL_space_cons {jd : List Char} (hd1 : jd.dropWhile isPySpace = jd)
    (hd2 : jd.reverse.dropWhile isPySpace = jd.reverse) :
    trimL (' ' :: jd) = jd := by
  have hsp : isPySpace ' ' = true := rfl
  simp [trimL, List.dropWhile_cons, hsp, hd1, hd2]

theorem trimL_newline_wrap {jd : List Char} (hd1 : jd.dropWhile isPySpace = jd)
    (hd2 : jd.reverse.dropWhile isPySpace = jd.reverse) :
    trimL (('\n' :: jd) ++ ['\n']) = jd := by
  cases jd with
  | nil => decide
  | cons c t =>
    have hc : isPySpace c = false := head_not_space_of_dropWhile_eq hd1
    have hn : isPySpace '\n' = true := rfl
    have hd2' : List.dropWhile isPySpace (t.reverse ++ [c]) = t.reverse ++ [c] := by
      simpa using hd2
    simp [trimL, List.dropWhile_cons, hn, hc, hd2']

/-!
The claims.
-/

/-- C1: for every patient identifier and every deterministic behaviour of
the backend client and the tools, `run_agent` returns exactly one outcome —
a plan or an error dict (the two constructors of `AgentOutcome`) — and
performs at most `MAX_ITERATIONS = 5` loop iterations, hence at most 5
backend calls and at most 5 tool dispatches.  Termination itself is
structural in the embedding: the source's `for i in range(MAX_ITERATIONS)`
loop is total by construction, and `run_agent` is a total function. -/
theorem claim1_run_agent_bounded (J : Type) (env : AgentEnv J) (patient_id : ℤ) :
    ((∃ j, (run_agent env patient_id).result = .plan j) ∨
      (∃ m, (run_agent env patient_id).result = .errdict m)) ∧
    (run_agent env patient_id).backendCalls ≤ 5 ∧
    (run_agent env patient_id).toolDispatches ≤ 5 := by
  refine ⟨?_, ?_, ?_⟩
  · cases hr : (run_agent env patient_id).result with
    | plan j => exact Or.inl ⟨j, rfl⟩
    | errdict m => exact Or.inr ⟨m, rfl⟩
  · exact (runLoop_calls_le env MAX_ITERATIONS _).1
  · exact (runLoop_calls_le env MAX_ITERATIONS _).2

/-- C2: if on an iteration (any remaining fuel, any current transcript) the
backend client returns an error dict instead of text, the loop returns that
very error value unchanged immediately: one backend call, zero tool
dispatches, and the transcript list records nothing beyond the entry
transcript — no further iterations happen.  (On a dict the Python test
`"Final Answer:" in llm_response` inspects the dict's keys, and every dict
the client produces has the single key `"error"`, so the dict is returned
by the `isinstance` branch.) -/
theorem claim2_backend_error_propagates {J : Type} (env : AgentEnv J)
    (fuel : ℕ) (h m : String) (hb : env.backend h = .errdict m) :
    runLoop env (fuel + 1) h = ⟨.errdict m, 1, 0, [h]⟩ :=
  runLoop_backend_error env fuel h m hb

/-- Witness for C2 at a concrete environment: the first iteration of a full
`run_agent` budget propagates the backend's error dict unchanged. -/
theorem claim2_witness :
    runLoop envBackendError 5 "H" = ⟨.errdict "quota exceeded", 1, 0, ["H"]⟩ :=
  claim2_backend_error_propagates envBackendError 4 "H" "quota exceeded" rfl

/-- C8: if a backend response contains the terminal marker but the payload
after it fails to decode, the loop terminates on that iteration with
exactly the dict `{"error": "Failed to parse the final plan from the LLM."}`
(brace-escaped here), makes no further backend calls and dispatches no
tool. -/
theorem claim8_parse_failure_terminal {J : Type} (env : AgentEnv J)
    (fuel : ℕ) (h s : String) (hb : env.backend h = .text s)
    (hm : strContains s "Final Answer:" = true)
    (hj : env.jsonLoads (extractFinalJson s) = none) :
    runLoop env (fuel + 1) h =
      ⟨.errdict "Failed to parse the final plan from the LLM.", 1, 0, [h]⟩ :=
  runLoop_parse_failure env fuel h s hb hm hj

/-- Witness for C8: a backend answering `Final Answer: not json` with a
decoder that rejects everything. -/
theorem claim8_witness :
    runLoop envBadPlan 5 "H" =
      ⟨.errdict "Failed to parse the final plan from the LLM.", 1, 0, ["H"]⟩ :=
  claim8_parse_failure_terminal envBadPlan 4 "H" "Final Answer: not json" rfl (by decide) rfl

/-- C9: if the backend always returns text and no response ever contains
the terminal marker, the run returns exactly
`{"error": "Agent failed to complete."}` (brace-escaped here) after the
iteration budget. -/
theorem claim9_max_iterations {J : Type} (env : AgentEnv J) (patient_id : ℤ)
    (hyp : ∀ p, ∃ s, env.backend p = .text s ∧ strContains s "Final Answer:" = false) :
    (run_agent env patient_id).result = .errdict "Agent failed to complete." :=
  runLoop_all_text_no_marker env hyp MAX_ITERATIONS _

/-- Witness for C9: a backend that always answers with a Thought/Action
pair and never the marker. -/
theorem claim9_witness :
    (run_agent envNoMarker 7).result = .errdict "Agent failed to complete." :=
  claim9_max_iterations envNoMarker 7
    (fun _ => ⟨"Thought: inspect\nAction: notes_tool(7)", rfl, by decide⟩)

/-- C10: the transcript is append-only: it is seeded with the fixed system
instructions plus the patient identifier, and the per-iteration transcript
snapshots form a chain in which each next transcript is the previous one
with an appended suffix, the suffix being a newline, the raw backend
response, a newline, and the rendered observation (`Observation: ` followed
by the serialized result of dispatching the parsed action); no earlier
segment is rewritten or removed. -/
theorem claim10_transcript_append_only (J : Type) (env : AgentEnv J) (patient_id : ℤ) :
    (run_agent env patient_id).transcripts.head? =
      some (SYSTEM_PROMPT ++ "\n\nBegin analysis for patient_id: " ++ toString patient_id) ∧
    List.Chain' (transcriptStep env) (run_agent env patient_id).transcripts ∧
    List.Chain' (fun a b => ∃ t, b = a ++ t) (run_agent env patient_id).transcripts := by
  refine ⟨runLoop_transcripts_head env MAX_ITERATIONS _, runLoop_transcripts_chain env MAX_ITERATIONS _, ?_⟩
  refine (runLoop_transcripts_chain env MAX_ITERATIONS _).imp ?_
  rintro a b ⟨s, _, _, rfl⟩
  refine ⟨"\n" ++ (s ++ ("\n" ++
    ("Observation: " ++ env.dumps (execute_tool env.tools (parse_llm_output s).2)))), ?_⟩
  apply String.ext
  simp [String.data_append, List.append_assoc]


/-- C4: for every action string the dispatcher returns a result dict and
never propagates an exception (in the embedding `execute_tool` is a total
function into `ToolOutcome`, mirroring the source's all-enclosing
`try/except`); for an action string whose extracted name is outside the
registered set — including the empty action string produced when no
`Action:` marker is present — the result is an error dict; and on a
marker-free response the loop appends the serialized dispatch result as an
observation and continues to the next iteration instead of aborting,
whatever the dispatch result was. -/
theorem claim4_dispatch_total (J : Type) :
    (∀ (tools : ToolName → ℕ → Except String J) (action : String),
        toolOfName (funcName action) = none → (execute_tool tools action).isErr = true) ∧
    (∀ s : String, strContains s "Action:" = false → (parse_llm_output s).2 = "") ∧
    (∀ (env : AgentEnv J) (fuel : ℕ) (h s : String),
        env.backend h = .text s → strContains s "Final Answer:" = false →
        runLoop env (fuel + 1) h =
          ⟨(runLoop env fuel (h ++ "\n" ++ s ++ "\n" ++
              ("Observation: " ++ env.dumps (execute_tool env.tools (parse_llm_output s).2)))).result,
            (runLoop env fuel (h ++ "\n" ++ s ++ "\n" ++
              ("Observation: " ++ env.dumps (execute_tool env.tools (parse_llm_output s).2)))).backendCalls + 1,
            (runLoop env fuel (h ++ "\n" ++ s ++ "\n" ++
              ("Observation: " ++ env.dumps (execute_tool env.tools (parse_llm_output s).2)))).toolDispatches + 1,
            h :: (runLoop env fuel (h ++ "\n" ++ s ++ "\n" ++
              ("Observation: " ++ env.dumps (execute_tool env.tools (parse_llm_output s).2)))).transcripts⟩) := by
  refine ⟨?_, ?_, ?_⟩
  · intro tools action hname
    cases hfi : findIntInParens action with
    | none => simp [execute_tool, hfi, ToolOutcome.isErr]
    | some n => simp [execute_tool, hfi, hname, ToolOutcome.isErr]
  · intro s hs
    have : afterFirstL "Action:".data s.data = none := afterFirstL_eq_none _ _ hs
    simp [parse_llm_output, this]
  · intro env fuel h s hb hm
    exact runLoop_step env fuel h s hb hm

/-- Witness for C4: an unregistered tool name and the empty action string
both produce an error dict. -/
theorem claim4_witness :
    (execute_tool stubTools "mystery_tool(4)").isErr = true ∧
    (execute_tool stubTools "").isErr = true ∧
    (parse_llm_output "no markers at all").2 = "" := by
  refine ⟨(claim4_dispatch_total String).1 stubTools "mystery_tool(4)" (by decide),
    (claim4_dispatch_total String).1 stubTools "" (by decide),
    (claim4_dispatch_total String).2.1 "no markers at all" (by decide)⟩

/-- C5 counterexample: the action string `prediction_tool(1, 2)` has two
usable integers inside the parentheses, yet the dispatcher does not return
an invalid-action error: it invokes the tool with the first integer. -/
theorem claim5_counterexample :
    digitRunCount "prediction_tool(1, 2)".data = 2 ∧
    (execute_tool stubTools "prediction_tool(1, 2)").isErr = false ∧
    execute_tool stubTools "prediction_tool(1, 2)" = .ok "prediction_tool:1" := by
  refine ⟨by decide, by decide, by decide⟩

/-- C5 (amended): the dispatcher's argument extraction searches for the
first integer in a parenthesized segment; if no integer is found, the
request is invalid: dispatch returns the invalid-action error dict without
invoking any tool (the result does not depend on the injected tools); if
an integer is found and the name is registered, the tool is invoked with
the first such integer. -/
theorem claim5_first_integer (J : Type) :
    (∀ (tools : ToolName → ℕ → Except String J) (action : String),
        findIntInParens action = none →
        execute_tool tools action =
          .err ("Failed to execute tool: Could not find a valid integer patient ID in action: "
            ++ action)) ∧
    (∀ (tools tools2 : ToolName → ℕ → Except String J) (action : String),
        findIntInParens action = none →
        execute_tool tools action = execute_tool tools2 action) ∧
    (∀ (tools : ToolName → ℕ → Except String J) (action : String) (n : ℕ) (t : ToolName),
        findIntInParens action = some n → toolOfName (funcName action) = some t →
        execute_tool tools action =
          match tools t n with
          | .ok v => .ok v
          | .error m => .err ("Failed to execute tool: " ++ m)) := by
  refine ⟨?_, ?_, ?_⟩
  · intro tools action hfi
    simp [execute_tool, hfi]
  · intro tools tools2 action hfi
    simp [execute_tool, hfi]
  · intro tools action n t hfi ht
    simp [execute_tool, hfi, ht]

/-- Witness for C5 (amended): no integer in `notes_tool()` gives the
invalid-action error; `notes_tool(7)` invokes the notes tool on 7. -/
theorem claim5_witness :
    execute_tool stubTools "notes_tool()" =
      .err ("Failed to execute tool: Could not find a valid integer patient ID in action: "
        ++ "notes_tool()") ∧
    execute_tool stubTools "notes_tool(7)" = .ok "notes_tool:7" := by
  constructor
  · exact (claim5_first_integer String).1 stubTools "notes_tool()" (by decide)
  · have := (claim5_first_integer String).2.2 stubTools "notes_tool(7)" 7 .notes_tool
      (by decide) (by decide)
    simpa [stubTools, toolLabel] using this

/-- C6: under the default budget (3 attempts, initial delay 5), a backend
that reports resource exhaustion on every attempt makes the client wait 5,
then 10, then 20 time units, doubling each time, and the exhausted budget
yields the explicit error dict; moreover for any budget, if every attempt
fails with a rate-limit or any other exception, the client returns an
error dict — no exception escapes (the embedding is a total function whose
failure results are exactly the error dicts of the source). -/
theorem claim6_retry_backoff :
    (∀ att : ℕ → AttemptOutcome, (∀ i, i < 3 → att i = .rateLimited) →
        call_agent_llm true att 3 5 =
          (.errdict "Failed to call Gemini API after 3 attempts.", [5, 10, 20])) ∧
    (∀ (att : ℕ → AttemptOutcome) (retries delay : ℕ),
        (∀ i, i < retries → att i = .rateLimited ∨ ∃ m, att i = .exc m) →
        ((call_agent_llm true att retries delay).1).isErrdict = true) := by
  constructor
  · intro att h
    have h0 := h 0 (by omega)
    have h1 := h 1 (by omega)
    have h2 := h 2 (by omega)
    simp only [call_agent_llm, llmRetryLoop, h0, h1, h2, if_true]
    rfl
  · intro att retries delay h
    have := llmRetryLoop_err_of_failures att retries retries 0 delay []
      (fun k hk => by simpa using h k hk)
    simpa [call_agent_llm] using this

/-- Witness for C6: all-rate-limited attempts give the backoff trace
5, 10, 20 and the exhaustion error; attempts that always raise give an
error dict as well. -/
theorem claim6_witness :
    call_agent_llm true (fun _ => AttemptOutcome.rateLimited) 3 5 =
      (.errdict "Failed to call Gemini API after 3 attempts.", [5, 10, 20]) ∧
    ((call_agent_llm true (fun _ => AttemptOutcome.exc "boom") 3 5).1).isErrdict = true :=
  ⟨claim6_retry_backoff.1 _ (fun _ _ => rfl),
    claim6_retry_backoff.2 _ 3 5 (fun _ _ => Or.inr ⟨"boom", rfl⟩)⟩

/-- C7: if, after some rate-limited attempts, the backend reports that the
output was withheld by the safety filter (no candidates), the client
returns the safety error dict immediately on that attempt: no retry and no
backoff wait for it, however many attempts remain in the budget (the wait
list contains exactly the waits of the earlier rate-limited attempts). -/
theorem claim7_safety_block_terminal (att : ℕ → AttemptOutcome) (retries delay k : ℕ)
    (hk : k < retries) (hpre : ∀ j, j < k → att j = .rateLimited)
    (hsb : att k = .safetyBlocked) :
    call_agent_llm true att retries delay =
      (.errdict "Response was blocked by safety settings.",
        (List.range k).map (fun j => 2 ^ j * delay)) := by
  have := llmRetryLoop_safety att retries k 0 delay [] retries hk
    (fun j hj => by simpa using hpre j hj) (by simpa using hsb)
  simpa [call_agent_llm] using this

/-- Witness for C7: one rate-limited attempt, then a safety block on the
second of three attempts: one wait of 5, then the immediate safety error. -/
theorem claim7_witness :
    call_agent_llm true
        (fun i => if i = 0 then AttemptOutcome.rateLimited else AttemptOutcome.safetyBlocked)
        3 5 =
      (.errdict "Response was blocked by safety settings.", [5]) := by
  have := claim7_safety_block_terminal
    (fun i => if i = 0 then AttemptOutcome.rateLimited else AttemptOutcome.safetyBlocked)
    3 5 1 (by omega)
    (fun j hj => by
      have hj0 : j = 0 := by omega
      subst hj0
      rfl)
    (by rfl)
  simpa using this


/-- C3 counterexample: a response whose JSON object is fenced by plain
code-fence delimiters (three backticks without the `json` tag) defeats the
extraction: only the `json`-tagged leading fence is stripped, so the text
handed to the decoder is not the embedded object text — extraction is not
independent of the fencing used. -/
theorem claim3_counterexample :
    strContains "Final Answer: \x60\x60\x60\n\x7b\"a\": 1\x7d\n\x60\x60\x60" "Final Answer:" = true ∧
    extractFinalJson "Final Answer: \x60\x60\x60\n\x7b\"a\": 1\x7d\n\x60\x60\x60" =
      "\x60\x60\x60\n\x7b\"a\": 1\x7d" ∧
    extractFinalJson "Final Answer: \x60\x60\x60\n\x7b\"a\": 1\x7d\n\x60\x60\x60" ≠
      "\x7b\"a\": 1\x7d" := by
  refine ⟨by decide, by decide, by decide⟩

/-- C3 (amended): for a backend response of the form `Final Answer:`
followed by a JSON object, with the fencing either absent or exactly the
`json`-tagged code fence the source strips, and the object text trimmed,
free of the terminal marker, and not itself starting with a `json`-tagged
fence token or ending in a fence token, the extraction yields the embedded
object text byte-for-byte, so any decoder yields an object equal to that of
the embedded JSON. -/
theorem claim3_fence_extraction (j : String)
    (htrim : trimS j = j)
    (hm1 : strContains (" " ++ j) "Final Answer:" = false)
    (hm2 : strContains (" \x60\x60\x60json\n" ++ j ++ "\n\x60\x60\x60") "Final Answer:" = false)
    (hpre : strStartsWith j "\x60\x60\x60json" = false)
    (hsuf : strEndsWith j "\x60\x60\x60" = false) :
    extractFinalJson ("Final Answer: " ++ j) = j ∧
    extractFinalJson ("Final Answer: \x60\x60\x60json\n" ++ j ++ "\n\x60\x60\x60") = j ∧
    (∀ (J : Type) (loads : String → Option J),
      loads (extractFinalJson ("Final Answer: " ++ j)) = loads j ∧
      loads (extractFinalJson ("Final Answer: \x60\x60\x60json\n" ++ j ++ "\n\x60\x60\x60")) = loads j) := by
  have htrimL : trimL j.data = j.data := congrArg String.data htrim
  obtain ⟨hd1, hd2⟩ := trimL_eq_self_parts htrimL
  have hpre' : startsWithL "\x60\x60\x60json".data j.data = false := hpre
  have hsuf' : endsWithL "\x60\x60\x60".data j.data = false := hsuf
  have hplain : extractFinalJson ("Final Answer: " ++ j) = j := by
    have hdata : ("Final Answer: " ++ j).data = "Final Answer:".data ++ (' ' :: j.data) := by
      rw [String.data_append]
      rw [show "Final Answer: ".data = "Final Answer:".data ++ [' '] from rfl]
      simp
    have hafter : afterFirstL "Final Answer:".data ("Final Answer: " ++ j).data =
        some (' ' :: j.data) := by
      rw [hdata]
      exact afterFirstL_append_self _ _ (by decide)
    have hbefore : beforeFirstL "Final Answer:".data (' ' :: j.data) = none :=
      beforeFirstL_eq_none _ _ hm1
    have hpiece : pieceOneL "Final Answer:".data ("Final Answer: " ++ j).data =
        some (' ' :: j.data) := by
      rw [pieceOneL, hafter]
      simp [hbefore]
    simp only [extractFinalJson, hpiece, Option.getD_some]
    rw [trimL_space_cons hd1 hd2]
    rw [hpre']
    simp only [Bool.false_eq_true, if_false]
    rw [hsuf']
    simp only [Bool.false_eq_true, if_false]
    rw [htrimL]
  have hfenced : extractFinalJson ("Final Answer: \x60\x60\x60json\n" ++ j ++ "\n\x60\x60\x60") = j := by
    have hdata2 : ("Final Answer: \x60\x60\x60json\n" ++ j ++ "\n\x60\x60\x60").data =
        "Final Answer:".data ++ (" \x60\x60\x60json\n".data ++ (j.data ++ "\n\x60\x60\x60".data)) := by
      simp [String.data_append, List.append_assoc]
    have hafter2 : afterFirstL "Final Answer:".data
        ("Final Answer: \x60\x60\x60json\n" ++ j ++ "\n\x60\x60\x60").data =
        some (" \x60\x60\x60json\n".data ++ (j.data ++ "\n\x60\x60\x60".data)) := by
      rw [hdata2]
      exact afterFirstL_append_self _ _ (by decide)
    have hm2' : hasSubstrL (" \x60\x60\x60json\n".data ++ (j.data ++ "\n\x60\x60\x60".data))
        "Final Answer:".data = false := by
      have h := hm2
      rw [show strContains (" \x60\x60\x60json\n" ++ j ++ "\n\x60\x60\x60") "Final Answer:" =
        hasSubstrL ((" \x60\x60\x60json\n".data ++ j.data) ++ "\n\x60\x60\x60".data)
          "Final Answer:".data from rfl] at h
      rwa [List.append_assoc] at h
    have hbefore2 : beforeFirstL "Final Answer:".data
        (" \x60\x60\x60json\n".data ++ (j.data ++ "\n\x60\x60\x60".data)) = none :=
      beforeFirstL_eq_none _ _ hm2'
    have hpiece2 : pieceOneL "Final Answer:".data
        ("Final Answer: \x60\x60\x60json\n" ++ j ++ "\n\x60\x60\x60").data =
        some (" \x60\x60\x60json\n".data ++ (j.data ++ "\n\x60\x60\x60".data)) := by
      rw [pieceOneL, hafter2, Option.map_some', hbefore2, Option.getD_none]
    have hy1 : ("\x60\x60\x60json\n".data ++ (j.data ++ "\n\x60\x60\x60".data)).dropWhile isPySpace =
        "\x60\x60\x60json\n".data ++ (j.data ++ "\n\x60\x60\x60".data) := by
      rw [show ("\x60\x60\x60json\n".data ++ (j.data ++ "\n\x60\x60\x60".data)) =
        '\x60' :: ("\x60\x60json\n".data ++ (j.data ++ "\n\x60\x60\x60".data)) from rfl]
      exact dropWhile_cons_of_neg rfl
    have hy2 : ("\x60\x60\x60json\n".data ++ (j.data ++ "\n\x60\x60\x60".data)).reverse.dropWhile
        isPySpace = ("\x60\x60\x60json\n".data ++ (j.data ++ "\n\x60\x60\x60".data)).reverse := by
      have hrev : ("\x60\x60\x60json\n".data ++ (j.data ++ "\n\x60\x60\x60".data)).reverse =
          '\x60' :: ('\x60' :: ('\x60' :: ('\n' :: (j.data.reverse ++
            "\x60\x60\x60json\n".data.reverse)))) := by
        simp [List.reverse_append]
      rw [hrev]
      exact dropWhile_cons_of_neg rfl
    have htr0 : trimL (" \x60\x60\x60json\n".data ++ (j.data ++ "\n\x60\x60\x60".data)) =
        "\x60\x60\x60json\n".data ++ (j.data ++ "\n\x60\x60\x60".data) := by
      rw [show (" \x60\x60\x60json\n".data ++ (j.data ++ "\n\x60\x60\x60".data)) =
        ' ' :: ("\x60\x60\x60json\n".data ++ (j.data ++ "\n\x60\x60\x60".data)) from rfl]
      exact trimL_space_cons hy1 hy2
    have hstart : startsWithL "\x60\x60\x60json".data
        ("\x60\x60\x60json\n".data ++ (j.data ++ "\n\x60\x60\x60".data)) = true := by
      rw [show ("\x60\x60\x60json\n".data ++ (j.data ++ "\n\x60\x60\x60".data)) =
        "\x60\x60\x60json".data ++ ('\n' :: (j.data ++ "\n\x60\x60\x60".data)) from rfl]
      exact startsWithL_append_self _ _
    have hdrop : ("\x60\x60\x60json\n".data ++ (j.data ++ "\n\x60\x60\x60".data)).drop 7 =
        '\n' :: (j.data ++ "\n\x60\x60\x60".data) := rfl
    have hrev1 : ('\n' :: (j.data ++ "\n\x60\x60\x60".data)).reverse =
        '\x60' :: ('\x60' :: ('\x60' :: ('\n' :: (j.data.reverse ++ ['\n'])))) := by
      simp [List.reverse_append]
    have hends : endsWithL "\x60\x60\x60".data ('\n' :: (j.data ++ "\n\x60\x60\x60".data)) = true := by
      rw [endsWithL, hrev1]
      rfl
    have hdr : dropRightL 3 ('\n' :: (j.data ++ "\n\x60\x60\x60".data)) =
        ('\n' :: j.data) ++ ['\n'] := by
      rw [dropRightL, hrev1]
      simp
    simp only [extractFinalJson, hpiece2, Option.getD_some, htr0]
    rw [hstart]
    simp only [if_true]
    rw [hdrop]
    rw [hends]
    simp only [if_true]
    rw [hdr]
    rw [trimL_newline_wrap hd1 hd2]
  exact ⟨hplain, hfenced, fun J loads =>
    ⟨congrArg loads hplain, congrArg loads hfenced⟩⟩

/-- Witness for C3 (amended): the object text of the counterexample,
extracted identically with and without the `json`-tagged fence. -/
theorem claim3_witness :
    extractFinalJson ("Final Answer: " ++ "\x7b\"a\": 1\x7d") = "\x7b\"a\": 1\x7d" ∧
    extractFinalJson ("Final Answer: \x60\x60\x60json\n" ++ "\x7b\"a\": 1\x7d" ++ "\n\x60\x60\x60") =
      "\x7b\"a\": 1\x7d" := by
  have h := claim3_fence_extraction "\x7b\"a\": 1\x7d" (by decide) (by decide) (by decide)
    (by decide) (by decide)
  exact ⟨h.1, h.2.1⟩

end VertexCare
